import Mathlib

/-!
Shallow embedding of `src/lib/BorgLogger.py`, together with the parts of
`src/config.py` and of the Python standard-library surface (`logging`,
`pathlib`, `traceback`, `str`) that the module uses.

Modelling conventions:
* Python strings are embedded as `List Char` (`PyStr`);
* Python paths are embedded by their `parts` tuple (`List PyStr`);
* the module-level mutable dictionary `BorgLogger._shared_state` is an
  association list that preserves key order;
* functions that can raise return `Except`, or a `state × Option exception`
  pair when the source mutates shared state.
-/

/-- Python strings, modelled as lists of characters. -/
abbrev PyStr := List Char

/-- Embed a Lean string literal as a Python string. -/
def S (s : String) : PyStr := s.data

/-- The apostrophe character `chr(39)`, the separator used by the `split`
call in `_customFormatException`. -/
def quoteChar : Char := Char.ofNat 39

/-- Python `str.split(sep)` for a one-character separator. (The source uses
`maxsplit=2`; with at least two separators present, element 1 of the result
coincides with element 1 of the full split, which is all the source reads.) -/
def pySplit (sep : Char) : PyStr → List PyStr
  | [] => [[]]
  | c :: cs =>
    if c = sep then [] :: pySplit sep cs
    else
      match pySplit sep cs with
      | [] => [[c]]
      | h :: t => (c :: h) :: t

/-- Python sequence indexing with negative index `-k`, i.e. `parts[-k]`.
Python raises `IndexError` when `k` exceeds the length; every use below is
guarded by a shape hypothesis, so the default value is never reached. -/
def pyNegIdx (l : List PyStr) (k : Nat) : PyStr := l.getD (l.length - k) (S "")

/-- Python string slicing `s[:-2]`, as in `context_text[:-2]`. -/
def pySliceMinus2 (s : PyStr) : PyStr := s.dropLast.dropLast

/-- `str(Path(...))` on a path given by its `parts` tuple: an absolute path
keeps its leading `/`, segments are joined with `/`. -/
def pyPathStr : List PyStr → PyStr
  | [] => S "."
  | p :: rest =>
    if p = S "/" then p ++ List.intercalate (S "/") rest
    else List.intercalate (S "/") (p :: rest)

/-- `Nat.repr`, the decimal rendering used when a line number is interpolated
into an f-string. -/
def pyNatStr (n : Nat) : PyStr := (Nat.repr n).data

/-- The kind of `logging` handler attached by `_config_logger`. -/
inductive HandlerKind where
  | console
  | file
  deriving DecidableEq

/-- A `logging.Handler` as configured by `_config_logger`: its kind, its
level (`setLevel` stores `_checkLevel`'s numeric result), the target path for
the file handler, and the format string passed to its `Formatter`. -/
structure Handler where
  kind : HandlerKind
  level : Int
  target : Option (List PyStr)
  fmt : PyStr
  deriving DecidableEq

/-- The `CustomLogger` instance built by `_config_logger`: its name, its
level, and its attached handlers in attachment order. (The source stores the
shared state's `name` value unchanged; no claim inspects it, so only its
string payload is kept.) -/
structure Logger where
  name : PyStr
  level : Int
  handlers : List Handler
  deriving DecidableEq

/-- The Python values that can appear in `BorgLogger._shared_state`, in a
`config` override dictionary, or as a `ContextAdapter`'s `extra` payload. -/
inductive PyVal where
  | pynone
  | int (n : Int)
  | str (s : PyStr)
  | path (parts : List PyStr)
  | dict (items : List (PyStr × PyVal))
  | pylist (items : List PyVal)
  | logger (lg : Logger)

/-- Python truthiness, as tested by `if not cls._shared_state["main_logger"]`. -/
def pyTruthy : PyVal → Bool
  | .pynone => false
  | .int n => n != 0
  | .str s => !s.isEmpty
  | .path _ => true
  | .dict items => !items.isEmpty
  | .pylist items => !items.isEmpty
  | .logger _ => true

/-- `BorgLogger._shared_state` (and any Python dict with string keys):
an association list preserving key order. -/
abbrev SState := List (PyStr × PyVal)

/-- Dict lookup `d[k]`. The five shared-state keys are always present, so
the `pynone` default is never reached in guarded uses. -/
def getS : SState → PyStr → PyVal
  | [], _ => .pynone
  | (k', v) :: rest, k => if k' = k then v else getS rest k

/-- Dict key membership, `k in d`. -/
def hasKey : SState → PyStr → Bool
  | [], _ => false
  | (k', _) :: rest, k => k' = k || hasKey rest k

/-- Dict update `d[k] = v` for a key that is already present, preserving key
order (the only updates the source performs are to existing keys). -/
def setS : SState → PyStr → PyVal → SState
  | [], _, _ => []
  | (k', v') :: rest, k, v => if k' = k then (k, v) :: rest else (k', v') :: setS rest k v

/-- `logging._nameToLevel` from the Python standard library. -/
def nameToLevel : List (PyStr × Int) :=
  [(S "CRITICAL", 50), (S "FATAL", 50), (S "ERROR", 40), (S "WARN", 30),
   (S "WARNING", 30), (S "INFO", 20), (S "DEBUG", 10), (S "NOTSET", 0)]

/-- Association-list lookup used for the level-name table. -/
def lookupLevel : List (PyStr × Int) → PyStr → Option Int
  | [], _ => none
  | (k', n) :: rest, k => if k' = k then some n else lookupLevel rest k

/-- `logging._checkLevel` (modelled from the Python standard-library source,
which `_config_logger` calls to validate the configured level): an `int` is
accepted as-is, a known level name maps to its numeric value, an unknown name
raises `ValueError`, and any other type raises `TypeError`. -/
def checkLevel : PyVal → Except PyStr Int
  | .int n => .ok n
  | .str s =>
    match lookupLevel nameToLevel s with
    | some n => .ok n
    | none => .error (S "Unknown level")
  | _ => .error (S "Level not an integer or a valid string")

/-- `Path.__truediv__` on the shared state's `log_file_path / log_file_name`
values: parts are concatenated, an absolute right operand replaces the left,
a string on the right is taken as one segment, and any other operand type
raises `TypeError`. -/
def pyPathJoin : PyVal → PyVal → Except PyStr (List PyStr)
  | .path a, .path b => .ok (if b.head? = some (S "/") then b else a ++ b)
  | .path a, .str b => .ok (a ++ [b])
  | _, _ => .error (S "TypeError: unsupported operand for /")

/-- Keep the string payload of the shared state's `name` value.
(`CustomLogger.__init__` stores the value unchanged; no claim inspects a
non-string name.) -/
def pyStrOf : PyVal → PyStr
  | .str s => s
  | _ => S ""

/-- `BorgLogger._config_logger`, as a transformer of the shared state that
returns the post state and an optionally raised exception. Statement order
follows the source: level validation first (line 79), then the file-handler
path, the two handlers, the logger, and — as the only write to shared state —
the final `main_logger` assignment (line 105), so a raise leaves the state
unchanged. -/
def _config_logger (s : SState) : SState × Option PyStr :=
  match checkLevel (getS s (S "root_level")) with
  | .error e => (s, some e)
  | .ok n =>
    match pyPathJoin (getS s (S "log_file_path")) (getS s (S "log_file_name")) with
    | .error e => (s, some e)
    | .ok logFilePath =>
      let fileHandler : Handler :=
        { kind := .file, level := n, target := some logFilePath,
          fmt := S "%(asctime)s %(name)-12s %(levelname)-8s [%(filename)s:%(lineno)d] %(message)s" }
      let consoleHandler : Handler :=
        { kind := .console, level := n, target := none,
          fmt := S "%(asctime)s %(levelname)-8s [%(filename)s:%(lineno)d] %(message)s" }
      let mainLogger : Logger :=
        { name := pyStrOf (getS s (S "name")), level := n,
          handlers := [consoleHandler, fileHandler] }
      (setS s (S "main_logger") (.logger mainLogger), none)

/-- `BorgLogger.get_logger`: return the stored `main_logger` value, first
running `_config_logger` when the stored value is falsy. -/
def get_logger (s : SState) : SState × Except PyStr PyVal :=
  if pyTruthy (getS s (S "main_logger")) then (s, .ok (getS s (S "main_logger")))
  else
    match _config_logger s with
    | (s', none) => (s', .ok (getS s' (S "main_logger")))
    | (s', some e) => (s', .error e)

/-- A `ContextAdapter`: the wrapped logger value and the `extra` context
payload given at construction. -/
structure ContextAdapter where
  wrapped : PyVal
  extra : PyVal

/-- `BorgLogger.get_adapter`: construct a `ContextAdapter` around the shared
logger, first running `_config_logger` when the stored value is falsy. -/
def get_adapter (s : SState) (contextInfo : PyVal) : SState × Except PyStr ContextAdapter :=
  if pyTruthy (getS s (S "main_logger")) then
    (s, .ok { wrapped := getS s (S "main_logger"), extra := contextInfo })
  else
    match _config_logger s with
    | (s', none) => (s', .ok { wrapped := getS s' (S "main_logger"), extra := contextInfo })
    | (s', some e) => (s', .error e)

/-- The merge loop in `BorgLogger.__new__`: each `config` item whose key is
already a shared-state key overwrites that entry; all other keys are skipped. -/
def mergeConfig : List (PyStr × PyVal) → SState → SState
  | [], s => s
  | kv :: rest, s => mergeConfig rest (if hasKey s kv.1 then setS s kv.1 kv.2 else s)

/-- `BorgLogger.__new__`: merge a dict `config` into the shared state, then
run `_config_logger` when `main_logger` is falsy. A non-dict `config`
(in particular `None`, the default) is ignored by the `isinstance` guard. -/
def borgNew (config : Option (List (PyStr × PyVal))) (s : SState) : SState × Option PyStr :=
  let s1 := match config with
            | some cfg => mergeConfig cfg s
            | none => s
  if pyTruthy (getS s1 (S "main_logger")) then (s1, none) else _config_logger s1

/-- The initial `BorgLogger._shared_state`, parameterised by the runtime
values taken from `config.py`: `CONFIG.LOG_LEVEL` (10 with `-d`, else 20),
`ROOT_DIR`, and `CONFIG.LOG_FILE` (the logger name, optionally
date-suffixed). -/
def shared_state_init (logLevel : Int) (rootDir : List PyStr) (logFile : PyStr) : SState :=
  [ (S "name", .str (S "LeanPython")),
    (S "main_logger", .pynone),
    (S "root_level", .int logLevel),
    (S "log_file_path", .path (rootDir ++ [S "logs"])),
    (S "log_file_name", .path [logFile ++ S ".log"]) ]

/-- The `str()` of the generator object created — and never iterated — in the
mapping branch of `ContextAdapter.process`; the hexadecimal id varies per
object. -/
def genexprRepr (addr : PyStr) : PyStr :=
  S "<generator object ContextAdapter.process.<locals>.<genexpr> at " ++ addr ++ S ">"

/-- `ContextAdapter.process`. In the mapping branch the source applies `str`
to the generator expression object itself (the generator is never joined or
consumed, so the dict's items do not appear), then slices off the last two
characters; in the string branch the context is wrapped in brackets; any
other payload leaves the message unchanged. -/
def ContextAdapter.process (self : ContextAdapter) (addr : PyStr) (msg : PyStr) : PyStr :=
  match self.extra with
  | .dict _ =>
    let context_text := genexprRepr addr
    let context_text := pySliceMinus2 context_text
    S "[" ++ context_text ++ S "] " ++ msg
  | .str s => S "[" ++ s ++ S "] " ++ msg
  | _ => msg

/-- A traceback object chain: `tb_frame`'s source file (by its path parts),
`tb_lineno`, and `tb_next`. The head of the chain is the outermost recorded
frame — the one in which the exception is being handled — and the last entry
is the frame where the exception was raised. -/
inductive Traceback where
  | mk (fileParts : List PyStr) (lineno : Nat) (next : Option Traceback)

/-- The source file of the head entry's frame. This is what
`traceback.extract_stack(exc_info[2].tb_frame, limit=1)[0][0]` yields:
`walk_stack` starts at the given frame, `limit=1` keeps only that frame. -/
def Traceback.fileParts : Traceback → List PyStr
  | .mk f _ _ => f

/-- `tb_lineno` of the head entry. -/
def Traceback.lineno : Traceback → Nat
  | .mk _ n _ => n

/-- The innermost entry of a traceback chain: the frame where the exception
was actually raised. (Used only to state the spec's claims; the source never
walks the chain.) -/
def Traceback.innermost : Traceback → List PyStr × Nat
  | .mk f n none => (f, n)
  | .mk _ _ (some tb) => tb.innermost

/-- An active exception context, as returned by `sys.exc_info()`: the
exception type's `str()` and docstring, the `str()` of the exception value as
interpolated by the f-string, and the traceback chain. -/
structure ExcInfo where
  typeStr : PyStr
  typeDoc : PyStr
  valueStr : PyStr
  tb : Traceback

/-- `_customFormatException`: the tuple
`(tb_lineno, str(exc_info[0]).split(chr39, maxsplit=2)[1], exc_info[1], doc)`
— the name component is the text between the first two apostrophes of the
type's `str()`. (Python raises `IndexError` when fewer than two apostrophes
are present; a class `str()` always has the `<class ...>` shape.) -/
def _customFormatException (e : ExcInfo) : Nat × PyStr × PyStr × PyStr :=
  (e.tb.lineno, (pySplit quoteChar e.typeStr).getD 1 (S ""), e.valueStr, e.typeDoc)

/-- The `err_file` computation in `detailed_exception`: the head frame's
source file, rendered as `parts[-2]/parts[-1]` when `relative_to(ROOT_DIR)`
succeeds (exactly when `ROOT_DIR`'s parts are a leading segment of the file's
parts; the result of `relative_to` itself is discarded), and as the raw path
otherwise — the `ValueError` is suppressed by `contextlib.suppress`. -/
def renderErrFile (rootDir : List PyStr) (parts : List PyStr) : PyStr :=
  if rootDir <+: parts then pyNegIdx parts 2 ++ S "/" ++ pyNegIdx parts 1
  else pyPathStr parts

/-- `detailed_exception`. -/
def detailed_exception (rootDir : List PyStr) (e : ExcInfo) : PyStr :=
  let errFile := renderErrFile rootDir e.tb.fileParts
  let r := _customFormatException e
  S "Exception in " ++ errFile ++ S ":" ++ pyNatStr r.1 ++ S " - " ++ r.2.1 ++
    S " - " ++ r.2.2.1 ++ S " - " ++ r.2.2.2

/-- The message transformation in `CustomLogger._log`: when `extra` is a dict
containing the key `"is_exception"`, the rendered exception detail is
appended to the message inside brackets; otherwise the message passes through
unchanged. `excInfo` is the active exception context read by `sys.exc_info()`
at the call site. -/
def CustomLogger.logMessage (rootDir : List PyStr) (excInfo : ExcInfo)
    (msg : PyStr) (extra : PyVal) : PyStr :=
  match extra with
  | .dict items =>
    if hasKey items (S "is_exception") then
      msg ++ S " [" ++ detailed_exception rootDir excInfo ++ S "]"
    else msg
  | _ => msg

/-- Record emission through the constructed logger: `Logger.callHandlers`
passes a record of level `lvl` to every attached handler whose level does not
exceed it, provided the logger's own level enables the record (the directly
constructed `CustomLogger` has no parent, so its own level is the effective
level). One output line per emitting handler. -/
def emit (lg : Logger) (lvl : Int) (msg : PyStr) : List (HandlerKind × PyStr) :=
  if lg.level ≤ lvl then
    lg.handlers.filterMap (fun h => if h.level ≤ lvl then some (h.kind, msg) else none)
  else []

/-- Program counter of one thread running `get_logger`'s first-acquisition
path. The truthiness test (line 113) and the `_config_logger()` call
(line 114) are separate statements with no lock or atomic check-and-set
around them, so a thread can be preempted between the two (the file handler's
`open` in `_config_logger` is itself a preemption point). -/
inductive ThreadPC where
  | start
  | constructing
  | done
  deriving DecidableEq

/-- Global state of `k` threads racing through `get_logger`: the shared
dictionary, each thread's program counter, and a count of completed
`_config_logger` construction sequences. -/
structure RaceState (k : Nat) where
  shared : SState
  pcs : Fin k → ThreadPC
  constructions : Nat

/-- One atomic step of thread `i`: either the truthiness test of line 113, or
the construction call of line 114. -/
def raceStep {k : Nat} (st : RaceState k) (i : Fin k) : RaceState k :=
  match st.pcs i with
  | .start =>
    if pyTruthy (getS st.shared (S "main_logger")) then
      { st with pcs := fun j => if j = i then .done else st.pcs j }
    else
      { st with pcs := fun j => if j = i then .constructing else st.pcs j }
  | .constructing =>
    { shared := (_config_logger st.shared).1,
      pcs := fun j => if j = i then .done else st.pcs j,
      constructions := st.constructions + 1 }
  | .done => st

/-- Run a schedule: a list of thread ids, executed left to right. -/
def raceRun {k : Nat} (sched : List (Fin k)) (st : RaceState k) : RaceState k :=
  sched.foldl raceStep st

/-- All `k` threads about to make their first acquisition call. -/
def raceInit (k : Nat) (s : SState) : RaceState k :=
  { shared := s, pcs := fun _ => .start, constructions := 0 }

/-- A sample project root, standing for `config.ROOT_DIR`. -/
def demoRoot : List PyStr := [S "/", S "home", S "proj"]

/-- A sample pristine shared state (no `-d`, no `--date`). -/
def wState : SState := shared_state_init 20 demoRoot (S "LeanPython")

/-- The logger that `_config_logger` builds from `wState`. -/
def wLogger : Logger :=
  { name := S "LeanPython", level := 20,
    handlers :=
      [ { kind := .console, level := 20, target := none,
          fmt := S "%(asctime)s %(levelname)-8s [%(filename)s:%(lineno)d] %(message)s" },
        { kind := .file, level := 20,
          target := some [S "/", S "home", S "proj", S "logs", S "LeanPython.log"],
          fmt := S "%(asctime)s %(name)-12s %(levelname)-8s [%(filename)s:%(lineno)d] %(message)s" } ] }

/-- `wState` after the first successful acquisition. -/
def wState1 : SState := setS wState (S "main_logger") (.logger wLogger)

/-- A sample active `ZeroDivisionError` caught in the frame that raised it
(single-entry traceback), in a file under the project root. -/
def wExc : ExcInfo :=
  { typeStr := S "<class " ++ quoteChar :: (S "ZeroDivisionError" ++ quoteChar :: S ">"),
    typeDoc := S "Second argument to a division or modulo operation was zero.",
    valueStr := S "division by zero",
    tb := .mk (demoRoot ++ [S "lib", S "m.py"]) 7 none }

/-- A sample active `ZeroDivisionError` raised in `pkg/foo.py` line 5 and
caught one frame up, in `lib/bar.py` line 10 (two-entry traceback). -/
def wExc2 : ExcInfo :=
  { typeStr := S "<class " ++ quoteChar :: (S "ZeroDivisionError" ++ quoteChar :: S ">"),
    typeDoc := S "Second argument to a division or modulo operation was zero.",
    valueStr := S "division by zero",
    tb := .mk (demoRoot ++ [S "lib", S "bar.py"]) 10
            (some (.mk (demoRoot ++ [S "pkg", S "foo.py"]) 5 none)) }

/-- A sample active `ZeroDivisionError` raised in a file outside the project
root. -/
def wExcOutside : ExcInfo :=
  { typeStr := S "<class " ++ quoteChar :: (S "ZeroDivisionError" ++ quoteChar :: S ">"),
    typeDoc := S "Second argument to a division or modulo operation was zero.",
    valueStr := S "division by zero",
    tb := .mk [S "/", S "etc", S "deep", S "x.py"] 3 none }

/-- A sample `foo.py` raise-and-catch-in-frame exception for the amended C8
statement. -/
def wExcFoo : ExcInfo :=
  { typeStr := S "<class " ++ quoteChar :: (S "ZeroDivisionError" ++ quoteChar :: S ">"),
    typeDoc := S "Second argument to a division or modulo operation was zero.",
    valueStr := S "division by zero",
    tb := .mk (demoRoot ++ [S "pkg", S "foo.py"]) 5 none }

set_option maxRecDepth 10000

/-! ### Helper lemmas (shared) -/

theorem not_mem_append' {α : Type} {x : α} {l₁ l₂ : List α}
    (h₁ : x ∉ l₁) (h₂ : x ∉ l₂) : x ∉ l₁ ++ l₂ := by
  intro h
  rcases List.mem_append.mp h with h | h
  · exact h₁ h
  · exact h₂ h

theorem pySplit_sep_cons (sep : Char) (a rest : PyStr) (ha : ∀ x ∈ a, x ≠ sep) :
    pySplit sep (a ++ sep :: rest) = a :: pySplit sep rest := by
  induction a with
  | nil => simp [pySplit]
  | cons c cs ih =>
    have hc : c ≠ sep := ha c (List.mem_cons_self c cs)
    have ih' := ih (fun x hx => ha x (List.mem_cons_of_mem c hx))
    simp only [List.cons_append, pySplit, if_neg hc, List.append_eq]
    rw [ih']

theorem pySplit_between_quotes (sep : Char) (a b c : PyStr)
    (ha : ∀ x ∈ a, x ≠ sep) (hb : ∀ x ∈ b, x ≠ sep) :
    (pySplit sep (a ++ sep :: (b ++ sep :: c))).getD 1 (S "") = b := by
  rw [pySplit_sep_cons sep a _ ha, pySplit_sep_cons sep b c hb]
  rfl

theorem pyNegIdx_pair_left (ps : List PyStr) (a b : PyStr) :
    pyNegIdx (ps ++ [a, b]) 2 = a := by
  induction ps with
  | nil => rfl
  | cons c t ih =>
    simp only [pyNegIdx] at ih ⊢
    rw [List.cons_append, List.length_cons]
    have harith : (t ++ [a, b]).length + 1 - 2 = (t ++ [a, b]).length - 2 + 1 := by
      simp only [List.length_append, List.length_cons, List.length_nil]
      omega
    rw [harith, List.getD_cons_succ]
    exact ih

theorem pyNegIdx_pair_right (ps : List PyStr) (a b : PyStr) :
    pyNegIdx (ps ++ [a, b]) 1 = b := by
  induction ps with
  | nil => rfl
  | cons c t ih =>
    simp only [pyNegIdx] at ih ⊢
    rw [List.cons_append, List.length_cons]
    have harith : (t ++ [a, b]).length + 1 - 1 = (t ++ [a, b]).length - 1 + 1 := by
      simp only [List.length_append, List.length_cons, List.length_nil]
      omega
    rw [harith, List.getD_cons_succ]
    exact ih

/-- The key list of a shared-state dictionary. -/
def keysOf (s : SState) : List PyStr := s.map Prod.fst

theorem keysOf_setS (s : SState) (k : PyStr) (v : PyVal) :
    keysOf (setS s k v) = keysOf s := by
  induction s with
  | nil => rfl
  | cons kv rest ih =>
    obtain ⟨k', v'⟩ := kv
    by_cases h : k' = k
    · simp [setS, keysOf, h]
    · simp [setS, keysOf, h]
      simpa [keysOf] using ih

theorem hasKey_iff_mem_keysOf (s : SState) (k : PyStr) :
    hasKey s k = true ↔ k ∈ keysOf s := by
  induction s with
  | nil => simp [hasKey, keysOf]
  | cons kv rest ih =>
    obtain ⟨k', v'⟩ := kv
    simp only [hasKey, keysOf, List.map_cons, List.mem_cons, Bool.or_eq_true,
      decide_eq_true_eq, ih]
    constructor
    · rintro (rfl | h)
      · exact Or.inl rfl
      · exact Or.inr h
    · rintro (rfl | h)
      · exact Or.inl rfl
      · exact Or.inr h

theorem hasKey_congr {s t : SState} (h : keysOf s = keysOf t) (k : PyStr) :
    hasKey s k = hasKey t k := by
  rw [Bool.eq_iff_iff, hasKey_iff_mem_keysOf, hasKey_iff_mem_keysOf, h]

theorem getS_setS_self {s : SState} {k : PyStr} (v : PyVal) (h : hasKey s k = true) :
    getS (setS s k v) k = v := by
  induction s with
  | nil => simp [hasKey] at h
  | cons kv rest ih =>
    obtain ⟨k', v'⟩ := kv
    by_cases hk : k' = k
    · simp [setS, hk, getS]
    · have h' : hasKey rest k = true := by
        simpa [hasKey, hk] using h
      simp [setS, hk, getS, ih h']

theorem getS_setS_ne {s : SState} {k k' : PyStr} (v : PyVal) (h : k' ≠ k) :
    getS (setS s k' v) k = getS s k := by
  induction s with
  | nil => rfl
  | cons kv rest ih =>
    obtain ⟨k0, v0⟩ := kv
    by_cases hk : k0 = k'
    · subst hk
      simp [setS, getS, h]
    · simp [setS, hk, getS, ih]

theorem keysOf_mergeConfig (cfg : List (PyStr × PyVal)) (s : SState) :
    keysOf (mergeConfig cfg s) = keysOf s := by
  induction cfg generalizing s with
  | nil => rfl
  | cons kv rest ih =>
    simp only [mergeConfig]
    by_cases h : hasKey s kv.1 = true
    · rw [if_pos h, ih, keysOf_setS]
    · rw [if_neg h, ih]

theorem getS_mergeConfig_not_mem (cfg : List (PyStr × PyVal)) (s : SState) (k : PyStr)
    (h : ∀ kv ∈ cfg, kv.1 ≠ k) :
    getS (mergeConfig cfg s) k = getS s k := by
  induction cfg generalizing s with
  | nil => rfl
  | cons kv rest ih =>
    simp only [mergeConfig]
    have hkv : kv.1 ≠ k := h kv (List.mem_cons_self _ _)
    have hrest : ∀ kv' ∈ rest, kv'.1 ≠ k := fun kv' hm => h kv' (List.mem_cons_of_mem _ hm)
    by_cases hk : hasKey s kv.1 = true
    · rw [if_pos hk, ih _ hrest, getS_setS_ne _ hkv]
    · rw [if_neg hk, ih _ hrest]

theorem getS_mergeConfig_not_hasKey (cfg : List (PyStr × PyVal)) (s : SState) (k : PyStr)
    (h : hasKey s k = false) :
    getS (mergeConfig cfg s) k = getS s k := by
  induction cfg generalizing s with
  | nil => rfl
  | cons kv rest ih =>
    simp only [mergeConfig]
    by_cases hk : hasKey s kv.1 = true
    · have hne : kv.1 ≠ k := by
        rintro rfl
        rw [hk] at h
        exact Bool.noConfusion h
      have h' : hasKey (setS s kv.1 kv.2) k = false := by
        rw [hasKey_congr (keysOf_setS s kv.1 kv.2) k]
        exact h
      rw [if_pos hk, ih _ h', getS_setS_ne _ hne]
    · rw [if_neg hk, ih _ h]

theorem mergeConfig_filter_aux (cfg : List (PyStr × PyVal)) (s0 : SState) :
    ∀ s : SState, keysOf s = keysOf s0 →
      mergeConfig (cfg.filter (fun kv => hasKey s0 kv.1)) s = mergeConfig cfg s := by
  induction cfg with
  | nil => intro s _; rfl
  | cons kv rest ih =>
    intro s hkeys
    rw [List.filter_cons]
    by_cases hk : hasKey s0 kv.1 = true
    · rw [if_pos (by simpa using hk)]
      simp only [mergeConfig]
      have hk' : hasKey s kv.1 = true := by
        rw [hasKey_congr hkeys]
        exact hk
      rw [if_pos hk']
      exact ih _ (by rw [keysOf_setS, hkeys])
    · rw [if_neg (by simpa using hk)]
      simp only [mergeConfig]
      have hk' : ¬ hasKey s kv.1 = true := by
        rw [hasKey_congr hkeys]
        exact hk
      rw [if_neg hk']
      exact ih _ hkeys

/-! ### Claims -/

/-- Claim C1. The spec says a mapping context renders as comma-joined
`key: value` pairs in brackets. The source instead stringifies the generator
expression object itself, so for the adapter with context `req ↦ 42` and
message `hello`, the logged message is the bracketed generator `repr` (minus
its last two characters) followed by the message; in particular it never
contains the claimed text `[req: 42] hello` (the generator's hexadecimal id
contains no colon). -/
theorem mapping_context_renders_generator_repr (lgv : PyVal) (addr : PyStr)
    (haddr : ∀ x ∈ addr, x ≠ ':') :
    ContextAdapter.process { wrapped := lgv, extra := .dict [(S "req", .str (S "42"))] }
        addr (S "hello")
      = S "[" ++ pySliceMinus2 (genexprRepr addr) ++ S "] " ++ S "hello"
  ∧ ¬ (S "[req: 42] hello") <:+:
      ContextAdapter.process { wrapped := lgv, extra := .dict [(S "req", .str (S "42"))] }
        addr (S "hello") := by
  refine ⟨rfl, ?_⟩
  intro hinf
  have hc : (':' : Char) ∈ S "[req: 42] hello" := by decide
  have hX : (':' : Char) ∉ pySliceMinus2 (genexprRepr addr) := by
    intro hm
    have h2 : (':' : Char) ∈ genexprRepr addr :=
      List.mem_of_mem_dropLast (List.mem_of_mem_dropLast hm)
    rcases List.mem_append.mp h2 with h2 | h2
    · rcases List.mem_append.mp h2 with h2 | h2
      · exact absurd h2 (by decide)
      · exact haddr _ h2 rfl
    · exact absurd h2 (by decide)
  have hnot :
      (':' : Char) ∉ S "[" ++ pySliceMinus2 (genexprRepr addr) ++ S "] " ++ S "hello" :=
    not_mem_append'
      (not_mem_append' (not_mem_append' (by decide) hX) (by decide)) (by decide)
  exact hnot (hinf.subset hc)

/-- Claim C1 witness: at the concrete generator id `0x7f2c80`. -/
theorem mapping_context_renders_generator_repr_witness :
    ContextAdapter.process { wrapped := .pynone, extra := .dict [(S "req", .str (S "42"))] }
        (S "0x7f2c80") (S "hello")
      = S "[" ++ pySliceMinus2 (genexprRepr (S "0x7f2c80")) ++ S "] " ++ S "hello"
  ∧ ¬ (S "[req: 42] hello") <:+:
      ContextAdapter.process { wrapped := .pynone, extra := .dict [(S "req", .str (S "42"))] }
        (S "0x7f2c80") (S "hello") :=
  mapping_context_renders_generator_repr .pynone (S "0x7f2c80") (by decide)

/-- Claim C2: a string context is wrapped in brackets and prefixed to the
message; a context of any non-mapping, non-string type (including an absent
one, `None`) leaves the message entirely unchanged. -/
theorem string_context_bracketed_other_passthrough (lgv extra : PyVal) (addr msg : PyStr) :
    (∀ s, extra = .str s →
      ContextAdapter.process { wrapped := lgv, extra := extra } addr msg
        = S "[" ++ s ++ S "] " ++ msg)
  ∧ ((∀ items, extra ≠ .dict items) → (∀ s, extra ≠ .str s) →
      ContextAdapter.process { wrapped := lgv, extra := extra } addr msg = msg) := by
  constructor
  · rintro s rfl
    rfl
  · intro hd hs
    cases extra with
    | dict items => exact absurd rfl (hd items)
    | str s => exact absurd rfl (hs s)
    | pynone => rfl
    | int n => rfl
    | path p => rfl
    | pylist l => rfl
    | logger lg => rfl

/-- Claim C2 witness: a string context and a `None` context at concrete
inputs. -/
theorem string_context_bracketed_other_passthrough_witness :
    ContextAdapter.process { wrapped := .pynone, extra := .str (S "req 42") }
        (S "0x1") (S "hello")
      = S "[" ++ S "req 42" ++ S "] " ++ S "hello"
  ∧ ContextAdapter.process { wrapped := .pynone, extra := .pynone } (S "0x1") (S "hello")
      = S "hello" :=
  ⟨(string_context_bracketed_other_passthrough .pynone (.str (S "req 42")) (S "0x1")
      (S "hello")).1 (S "req 42") rfl,
   (string_context_bracketed_other_passthrough .pynone .pynone (S "0x1") (S "hello")).2
      (fun _ h => PyVal.noConfusion h) (fun _ h => PyVal.noConfusion h)⟩

/-- Claim C5: with an invalid `root_level` in the shared state, the first
acquisition call raises the validation error of `logging._checkLevel` before
any handler is attached, and the shared state is unchanged — in particular
its `main_logger` reference is still absent (`None`). -/
theorem invalid_level_fails_before_attach (s : SState) (err : PyStr)
    (habsent : getS s (S "main_logger") = .pynone)
    (hbad : checkLevel (getS s (S "root_level")) = .error err) :
    get_logger s = (s, .error err)
  ∧ getS (get_logger s).1 (S "main_logger") = .pynone := by
  have h1 : get_logger s = (s, .error err) := by
    unfold get_logger _config_logger
    rw [habsent, hbad]
    rfl
  refine ⟨h1, ?_⟩
  rw [h1]
  exact habsent

/-- Claim C5 witness: the initial state with `root_level` overridden to the
unknown level name `chicken`. -/
theorem invalid_level_fails_before_attach_witness :
    get_logger (mergeConfig [(S "root_level", .str (S "chicken"))] wState)
      = (mergeConfig [(S "root_level", .str (S "chicken"))] wState, .error (S "Unknown level"))
  ∧ getS (get_logger (mergeConfig [(S "root_level", .str (S "chicken"))] wState)).1
      (S "main_logger") = .pynone :=
  invalid_level_fails_before_attach
    (mergeConfig [(S "root_level", .str (S "chicken"))] wState) (S "Unknown level") rfl rfl

/-- Claim C9 evidence. `get_logger`'s emptiness test (line 113) and its
`_config_logger()` call (line 114) are separate, unguarded statements. Under
the interleaving in which both of two threads run the test before either
constructs, two construction sequences run (two handler pairs are created),
refuting the claimed guarantee; the sequential schedule runs exactly one. -/
theorem unguarded_race_double_construction :
    (raceRun [(0 : Fin 2), 1, 0, 1] (raceInit 2 wState)).constructions = 2
  ∧ (raceRun [(0 : Fin 2), 0, 1, 1] (raceInit 2 wState)).constructions = 1 :=
  ⟨rfl, rfl⟩

/-- Claim C10: merging a `config` dict into the shared state only overwrites
keys already present; unrecognized entries are silently ignored (filtering
them out of the config gives the same result), the key set of the shared
state is unchanged, and an unrecognized key is still absent afterwards with
its lookups unaffected. -/
theorem merge_ignores_unknown_keys (cfg : List (PyStr × PyVal)) (s : SState) :
    keysOf (mergeConfig cfg s) = keysOf s
  ∧ mergeConfig (cfg.filter (fun kv => hasKey s kv.1)) s = mergeConfig cfg s
  ∧ ∀ k, hasKey s k = false →
      getS (mergeConfig cfg s) k = getS s k ∧ hasKey (mergeConfig cfg s) k = false := by
  refine ⟨keysOf_mergeConfig cfg s, mergeConfig_filter_aux cfg s s rfl, ?_⟩
  intro k hk
  refine ⟨getS_mergeConfig_not_hasKey cfg s k hk, ?_⟩
  rw [hasKey_congr (keysOf_mergeConfig cfg s) k]
  exact hk

/-- Claim C10 witness: a config with one recognized and one unrecognized key
against the pristine shared state. -/
theorem merge_ignores_unknown_keys_witness :
    keysOf (mergeConfig [(S "bogus", .int 1), (S "root_level", .int 10)] wState)
      = keysOf wState
  ∧ mergeConfig
      (([(S "bogus", .int 1), (S "root_level", .int 10)] :
          List (PyStr × PyVal)).filter (fun kv => hasKey wState kv.1)) wState
      = mergeConfig [(S "bogus", .int 1), (S "root_level", .int 10)] wState
  ∧ (getS (mergeConfig [(S "bogus", .int 1), (S "root_level", .int 10)] wState) (S "bogus")
        = getS wState (S "bogus")
      ∧ hasKey (mergeConfig [(S "bogus", .int 1), (S "root_level", .int 10)] wState)
          (S "bogus") = false) :=
  ⟨(merge_ignores_unknown_keys [(S "bogus", .int 1), (S "root_level", .int 10)] wState).1,
   (merge_ignores_unknown_keys [(S "bogus", .int 1), (S "root_level", .int 10)] wState).2.1,
   (merge_ignores_unknown_keys [(S "bogus", .int 1), (S "root_level", .int 10)] wState).2.2
     (S "bogus") rfl⟩

/-- Claim C3: from an unconstructed shared state, the first successful
acquisition stores a logger carrying exactly one console handler and one file
handler; every later `get_logger` call returns the same value and leaves the
state fixed (so N-fold acquisition never re-attaches handlers), `get_adapter`
wraps that same logger, and an enabled record is emitted exactly once per
handler — one console line and one file line. -/
theorem acquisition_idempotent_single_handler_pair (s s₁ : SState) (v : PyVal)
    (hk : hasKey s (S "main_logger") = true)
    (h0 : pyTruthy (getS s (S "main_logger")) = false)
    (h : get_logger s = (s₁, .ok v)) :
    ∃ lg : Logger, v = .logger lg
      ∧ (lg.handlers.filter (fun hd => hd.kind == HandlerKind.console)).length = 1
      ∧ (lg.handlers.filter (fun hd => hd.kind == HandlerKind.file)).length = 1
      ∧ get_logger s₁ = (s₁, .ok v)
      ∧ (∀ nn : Nat, (fun st => (get_logger st).1)^[nn] s₁ = s₁)
      ∧ (∀ ctx, get_adapter s₁ ctx = (s₁, .ok { wrapped := v, extra := ctx }))
      ∧ (∀ lvl msg, lg.level ≤ lvl →
          emit lg lvl msg = [(HandlerKind.console, msg), (HandlerKind.file, msg)]) := by
  have hfix : ∀ lg : Logger,
      get_logger (setS s (S "main_logger") (.logger lg))
        = (setS s (S "main_logger") (.logger lg), .ok (.logger lg)) := by
    intro lg
    unfold get_logger
    rw [getS_setS_self _ hk]
    rfl
  have hadapt : ∀ (lg : Logger) (ctx : PyVal),
      get_adapter (setS s (S "main_logger") (.logger lg)) ctx
        = (setS s (S "main_logger") (.logger lg),
           .ok { wrapped := .logger lg, extra := ctx }) := by
    intro lg ctx
    unfold get_adapter
    rw [getS_setS_self _ hk]
    rfl
  unfold get_logger at h
  rw [if_neg (by simp [h0])] at h
  cases hc : checkLevel (getS s (S "root_level")) with
  | error e =>
    unfold _config_logger at h
    simp only [hc] at h
    simp at h
  | ok n =>
    cases hj : pyPathJoin (getS s (S "log_file_path")) (getS s (S "log_file_name")) with
    | error e =>
      unfold _config_logger at h
      simp only [hc, hj] at h
      simp at h
    | ok fp =>
      unfold _config_logger at h
      simp only [hc, hj] at h
      rw [Prod.mk.injEq] at h
      obtain ⟨hs₁, hv⟩ := h
      rw [Except.ok.injEq] at hv
      rw [getS_setS_self _ hk] at hv
      subst hs₁
      subst hv
      refine ⟨_, rfl, rfl, rfl, hfix _, ?_, fun ctx => hadapt _ ctx, ?_⟩
      · intro nn
        induction nn with
        | zero => rfl
        | succ m ihm =>
          rw [Function.iterate_succ_apply']
          rw [ihm]
          show (get_logger _).1 = _
          rw [hfix]
      · intro lvl msg hlvl
        have hlvl' : n ≤ lvl := hlvl
        simp [emit, hlvl']

/-- Claim C3 witness: the pristine shared state; the logger built from it. -/
theorem acquisition_idempotent_single_handler_pair_witness :
    ∃ lg : Logger, (.logger wLogger : PyVal) = .logger lg
      ∧ (lg.handlers.filter (fun hd => hd.kind == HandlerKind.console)).length = 1
      ∧ (lg.handlers.filter (fun hd => hd.kind == HandlerKind.file)).length = 1
      ∧ get_logger wState1 = (wState1, .ok (.logger wLogger))
      ∧ (∀ nn : Nat, (fun st => (get_logger st).1)^[nn] wState1 = wState1)
      ∧ (∀ ctx, get_adapter wState1 ctx
          = (wState1, .ok { wrapped := .logger wLogger, extra := ctx }))
      ∧ (∀ lvl msg, lg.level ≤ lvl →
          emit lg lvl msg = [(HandlerKind.console, msg), (HandlerKind.file, msg)]) :=
  acquisition_idempotent_single_handler_pair wState wState1 (.logger wLogger) rfl rfl rfl

/-- Claim C4: before construction, `BorgLogger(config)` merges the overrides
and then constructs from the merged state — the constructed logger and both
its handlers take the merged level; after construction (and for overrides of
the configuration fields, which never name `main_logger`), the merge is
accepted without error and the stored logger, with all its fields and
attached handlers, is untouched. -/
theorem overrides_effective_only_before_construction (s : SState)
    (cfg : List (PyStr × PyVal)) :
    (pyTruthy (getS (mergeConfig cfg s) (S "main_logger")) = false →
        borgNew (some cfg) s = _config_logger (mergeConfig cfg s))
  ∧ (∀ (n : Int) (fp : List PyStr),
        pyTruthy (getS (mergeConfig cfg s) (S "main_logger")) = false →
        hasKey (mergeConfig cfg s) (S "main_logger") = true →
        checkLevel (getS (mergeConfig cfg s) (S "root_level")) = .ok n →
        pyPathJoin (getS (mergeConfig cfg s) (S "log_file_path"))
            (getS (mergeConfig cfg s) (S "log_file_name")) = .ok fp →
        ∃ lg : Logger,
          getS (borgNew (some cfg) s).1 (S "main_logger") = .logger lg
          ∧ (borgNew (some cfg) s).2 = none
          ∧ lg.level = n
          ∧ ∀ hd ∈ lg.handlers, hd.level = n)
  ∧ (∀ lg : Logger, getS s (S "main_logger") = .logger lg →
        (∀ kv ∈ cfg, kv.1 ≠ S "main_logger") →
        borgNew (some cfg) s = (mergeConfig cfg s, none)
          ∧ getS (mergeConfig cfg s) (S "main_logger") = .logger lg) := by
  refine ⟨?_, ?_, ?_⟩
  · intro hfalse
    unfold borgNew
    rw [if_neg (by simp [hfalse])]
  · intro n fp hfalse hkey hc hj
    have hB : borgNew (some cfg) s = _config_logger (mergeConfig cfg s) := by
      unfold borgNew
      rw [if_neg (by simp [hfalse])]
    rw [hB]
    unfold _config_logger
    simp only [hc, hj]
    refine ⟨_, getS_setS_self _ hkey, ?_, ?_, ?_⟩
    · trivial
    · trivial
    · intro hd hm
      simp only [List.mem_cons, List.not_mem_nil, or_false] at hm
      rcases hm with rfl | rfl
      · rfl
      · rfl
  · intro lg hlg hnomain
    have hmerge : getS (mergeConfig cfg s) (S "main_logger") = .logger lg := by
      rw [getS_mergeConfig_not_mem cfg s _ hnomain]
      exact hlg
    constructor
    · unfold borgNew
      rw [if_pos (by rw [hmerge]; rfl)]
    · exact hmerge

/-- Claim C4 witness: a level override against the pristine state, and a
file-name override against the constructed state. -/
theorem overrides_effective_only_before_construction_witness :
    (∃ lg : Logger,
        getS (borgNew (some [(S "root_level", .int 10)]) wState).1 (S "main_logger")
          = .logger lg
        ∧ (borgNew (some [(S "root_level", .int 10)]) wState).2 = none
        ∧ lg.level = 10
        ∧ ∀ hd ∈ lg.handlers, hd.level = 10)
  ∧ (borgNew (some [(S "log_file_name", .path [S "other.log"])]) wState1
        = (mergeConfig [(S "log_file_name", .path [S "other.log"])] wState1, none)
      ∧ getS (mergeConfig [(S "log_file_name", .path [S "other.log"])] wState1)
          (S "main_logger") = .logger wLogger) :=
  ⟨(overrides_effective_only_before_construction wState [(S "root_level", .int 10)]).2.1 10
      [S "/", S "home", S "proj", S "logs", S "LeanPython.log"] rfl rfl rfl rfl,
   (overrides_effective_only_before_construction wState1
      [(S "log_file_name", .path [S "other.log"])]).2.2 wLogger rfl (by decide)⟩

/-- Claim C6: an exception-flagged call with an active exception context
appends — inside brackets, after the original message — the composed string
`Exception in <file>:<line> - <type-name> - <exception-text> - <docstring>`,
and the original message is kept as a prefix of the result. -/
theorem exception_detail_appended_in_brackets (rootDir : List PyStr) (e : ExcInfo)
    (msg name : PyStr) (extra : List (PyStr × PyVal))
    (hflag : hasKey extra (S "is_exception") = true)
    (hrepr : e.typeStr = S "<class " ++ quoteChar :: (name ++ quoteChar :: S ">"))
    (hname : ∀ x ∈ name, x ≠ quoteChar) :
    CustomLogger.logMessage rootDir e msg (.dict extra)
      = msg ++ S " [" ++ (S "Exception in " ++ renderErrFile rootDir e.tb.fileParts ++ S ":"
          ++ pyNatStr e.tb.lineno ++ S " - " ++ name ++ S " - " ++ e.valueStr ++ S " - "
          ++ e.typeDoc) ++ S "]"
  ∧ msg <+: CustomLogger.logMessage rootDir e msg (.dict extra) := by
  have hsplit : (pySplit quoteChar e.typeStr).getD 1 (S "") = name := by
    rw [hrepr]
    exact pySplit_between_quotes quoteChar (S "<class ") name (S ">") (by decide) hname
  have h1 : CustomLogger.logMessage rootDir e msg (.dict extra)
      = msg ++ S " [" ++ detailed_exception rootDir e ++ S "]" := by
    show (if hasKey extra (S "is_exception") = true then
        msg ++ S " [" ++ detailed_exception rootDir e ++ S "]" else msg)
      = msg ++ S " [" ++ detailed_exception rootDir e ++ S "]"
    rw [if_pos hflag]
  constructor
  · rw [h1]
    simp [detailed_exception, _customFormatException, List.append_assoc]
    simpa using hsplit
  · rw [h1]
    exact ⟨S " [" ++ (detailed_exception rootDir e ++ S "]"), by simp [List.append_assoc]⟩

/-- Claim C6 witness: a `ZeroDivisionError` caught under the project root,
logged through an exception-flagged call with message `boom`. -/
theorem exception_detail_appended_in_brackets_witness :
    CustomLogger.logMessage demoRoot wExc (S "boom") (.dict [(S "is_exception", .pynone)])
      = S "boom" ++ S " [" ++ (S "Exception in " ++ renderErrFile demoRoot wExc.tb.fileParts
          ++ S ":" ++ pyNatStr wExc.tb.lineno ++ S " - " ++ S "ZeroDivisionError" ++ S " - "
          ++ wExc.valueStr ++ S " - " ++ wExc.typeDoc) ++ S "]"
  ∧ (S "boom") <+:
      CustomLogger.logMessage demoRoot wExc (S "boom") (.dict [(S "is_exception", .pynone)]) :=
  exception_detail_appended_in_brackets demoRoot wExc (S "boom") (S "ZeroDivisionError")
    [(S "is_exception", .pynone)] rfl rfl (by decide)

/-- Claim C7: the head frame's source file is rendered as
`<parent-folder>/<filename>` when the project root's parts lead the file's
parts (the `relative_to` success condition), and as the raw absolute path
otherwise — the `ValueError` from a failed relativization is suppressed, so
the rendering is total and `detailed_exception` composes with whichever
rendering resulted. -/
theorem err_file_relativization_never_raises (rootDir ps : List PyStr) (a b : PyStr)
    (e : ExcInfo) (hparts : e.tb.fileParts = ps ++ [a, b]) :
    (rootDir <+: ps ++ [a, b] →
        renderErrFile rootDir (ps ++ [a, b]) = a ++ S "/" ++ b)
  ∧ (¬ rootDir <+: ps ++ [a, b] →
        renderErrFile rootDir (ps ++ [a, b]) = pyPathStr (ps ++ [a, b]))
  ∧ detailed_exception rootDir e
      = S "Exception in " ++ renderErrFile rootDir (ps ++ [a, b]) ++ S ":"
        ++ pyNatStr e.tb.lineno ++ S " - " ++ (pySplit quoteChar e.typeStr).getD 1 (S "")
        ++ S " - " ++ e.valueStr ++ S " - " ++ e.typeDoc := by
  refine ⟨?_, ?_, ?_⟩
  · intro hpre
    unfold renderErrFile
    rw [if_pos hpre, pyNegIdx_pair_left, pyNegIdx_pair_right]
  · intro hpre
    unfold renderErrFile
    rw [if_neg hpre]
  · simp only [detailed_exception, _customFormatException, hparts]

/-- Claim C7 witness: a file under the project root, a file outside it, and
the composed detail string for the former. -/
theorem err_file_relativization_never_raises_witness :
    renderErrFile demoRoot (demoRoot ++ [S "lib", S "m.py"]) = S "lib" ++ S "/" ++ S "m.py"
  ∧ renderErrFile demoRoot ([S "/", S "etc"] ++ [S "deep", S "x.py"])
      = pyPathStr ([S "/", S "etc"] ++ [S "deep", S "x.py"])
  ∧ detailed_exception demoRoot wExc
      = S "Exception in " ++ renderErrFile demoRoot (demoRoot ++ [S "lib", S "m.py"]) ++ S ":"
        ++ pyNatStr wExc.tb.lineno ++ S " - " ++ (pySplit quoteChar wExc.typeStr).getD 1 (S "")
        ++ S " - " ++ wExc.valueStr ++ S " - " ++ wExc.typeDoc :=
  ⟨(err_file_relativization_never_raises demoRoot demoRoot (S "lib") (S "m.py") wExc rfl).1
      ⟨[S "lib", S "m.py"], rfl⟩,
   (err_file_relativization_never_raises demoRoot [S "/", S "etc"] (S "deep") (S "x.py")
      wExcOutside rfl).2.1 (by decide),
   (err_file_relativization_never_raises demoRoot demoRoot (S "lib") (S "m.py") wExc rfl).2.2⟩

/-- Claim C8 counterexample: for a `ZeroDivisionError` raised at
`pkg/foo.py:5` (the traceback's innermost frame) but caught one frame up at
`lib/bar.py:10`, the formatted string does not contain `foo.py:5` — it
contains `bar.py:10`, taken from the traceback chain's head (outermost)
entry, refuting the claim as stated. -/
theorem lineno_from_head_not_innermost_counterexample :
    wExc2.tb.innermost = (demoRoot ++ [S "pkg", S "foo.py"], 5)
  ∧ ¬ (S "foo.py:" ++ pyNatStr 5) <:+: detailed_exception demoRoot wExc2
  ∧ (S "bar.py:" ++ pyNatStr 10) <:+: detailed_exception demoRoot wExc2 :=
  ⟨rfl, by decide, by decide⟩

/-- Claim C8 as amended: the line number and frame information come from the
traceback chain's head entry — the outermost recorded frame, where the
exception is being handled — so when the exception is raised in the same
frame that catches it (single-entry traceback) at line N of `foo.py` under
the project root, the formatted string contains `foo.py:N`, the exception's
short type name, and its message text. -/
theorem lineno_from_traceback_head (rootDir ps : List PyStr) (parent : PyStr) (n : Nat)
    (e : ExcInfo) (name : PyStr)
    (htb : e.tb = .mk (ps ++ [parent, S "foo.py"]) n none)
    (hroot : rootDir <+: ps ++ [parent, S "foo.py"])
    (hrepr : e.typeStr = S "<class " ++ quoteChar :: (name ++ quoteChar :: S ">"))
    (hname : ∀ x ∈ name, x ≠ quoteChar) :
    (S "foo.py:" ++ pyNatStr n) <:+: detailed_exception rootDir e
  ∧ name <:+: detailed_exception rootDir e
  ∧ e.valueStr <:+: detailed_exception rootDir e := by
  have hsplit : (pySplit quoteChar e.typeStr).getD 1 (S "") = name := by
    rw [hrepr]
    exact pySplit_between_quotes quoteChar (S "<class ") name (S ">") (by decide) hname
  have hD : detailed_exception rootDir e
      = S "Exception in " ++ (parent ++ S "/" ++ S "foo.py") ++ S ":" ++ pyNatStr n
        ++ S " - " ++ name ++ S " - " ++ e.valueStr ++ S " - " ++ e.typeDoc := by
    simp only [detailed_exception, _customFormatException, htb, Traceback.fileParts,
      Traceback.lineno, hsplit]
    unfold renderErrFile
    rw [if_pos hroot, pyNegIdx_pair_left, pyNegIdx_pair_right]
  refine ⟨?_, ?_, ?_⟩
  · rw [hD]
    have hfoo : S "foo.py:" = S "foo.py" ++ S ":" := by decide
    rw [hfoo]
    exact ⟨S "Exception in " ++ (parent ++ S "/"),
      S " - " ++ name ++ S " - " ++ e.valueStr ++ S " - " ++ e.typeDoc,
      by simp [List.append_assoc]⟩
  · rw [hD]
    exact ⟨S "Exception in " ++ (parent ++ S "/" ++ S "foo.py") ++ S ":" ++ pyNatStr n
        ++ S " - ",
      S " - " ++ e.valueStr ++ S " - " ++ e.typeDoc, by simp [List.append_assoc]⟩
  · rw [hD]
    exact ⟨S "Exception in " ++ (parent ++ S "/" ++ S "foo.py") ++ S ":" ++ pyNatStr n
        ++ S " - " ++ name ++ S " - ",
      S " - " ++ e.typeDoc, by simp [List.append_assoc]⟩

/-- Claim C8 amended witness: a `ZeroDivisionError` raised and caught in
`pkg/foo.py` at line 5 under the project root. -/
theorem lineno_from_traceback_head_witness :
    (S "foo.py:" ++ pyNatStr 5) <:+: detailed_exception demoRoot wExcFoo
  ∧ (S "ZeroDivisionError") <:+: detailed_exception demoRoot wExcFoo
  ∧ wExcFoo.valueStr <:+: detailed_exception demoRoot wExcFoo :=
  lineno_from_traceback_head demoRoot demoRoot (S "pkg") 5 wExcFoo (S "ZeroDivisionError")
    rfl ⟨[S "pkg", S "foo.py"], rfl⟩ rfl (by decide)
